import Mathlib

/-!
Shallow embedding of the branding-assets client of `portal-frontend`:
the transport service (`BrandingAssetsService`), the single-asset helpers
with fallback, the batch resolution hook (`useBrandingAssets.refreshAssets`)
and the permission check.  Network effects are made explicit: each
operation is a pure function of the transport outcome it would observe,
and write operations additionally return the list of HTTP requests they
issue.
-/

/-- The closed enumeration of branding asset types: `logo` or `footer`. -/
inductive BrandingAssetType where
  | logo
  | footer
deriving DecidableEq, Repr

/-- The `BrandingAsset` record; optional fields are `Option`. -/
structure BrandingAsset where
  assetType : BrandingAssetType
  contentType : Option String := none
  fileName : Option String := none
  text : Option String := none
  url : Option String := none
deriving DecidableEq, Repr

/-- An HTTP response as observed by the service: status code, status text
and raw body text (used by the write paths via `response.text()`). -/
structure HttpResponse where
  status : Nat
  statusText : String := ""
  body : String := ""
deriving DecidableEq, Repr

/-- `response.ok` of the Fetch API: status in the range 200-299. -/
def HttpResponse.isOk (r : HttpResponse) : Bool :=
  decide (200 ≤ r.status) && decide (r.status < 300)

/-- The only error value the source ever throws on these paths is a plain
JavaScript `Error` carrying a message string. -/
inductive JsError where
  | error (msg : String)
deriving DecidableEq, Repr

/-- Transport outcome of one GET `fetch`: either the promise rejects
(network failure), or a response arrives; for a 2xx response the parsed
JSON body is the `BrandingAsset` carried here. -/
inductive GetOutcome where
  | networkFailure (msg : String)
  | got (resp : HttpResponse) (asset : BrandingAsset)
deriving DecidableEq, Repr

/-- Name of an asset type as it appears in URLs and messages. -/
def assetTypeName : BrandingAssetType → String
  | .logo => "logo"
  | .footer => "footer"

/-- `BrandingAssetsService.getAssetByType`: 404 maps to `none`; any other
non-2xx status throws; a network failure is caught, logged and rethrown. -/
def getAssetByType (assetType : BrandingAssetType) (o : GetOutcome) :
    Except JsError (Option BrandingAsset) :=
  match o with
  | .networkFailure msg => .error (.error msg)
  | .got resp asset =>
      if resp.status = 404 then
        .ok none
      else if resp.isOk then
        .ok (some asset)
      else
        .error (.error ("Failed to fetch " ++ assetTypeName assetType
          ++ " asset: " ++ resp.statusText))

/-- JavaScript `String.prototype.trim` (an environment builtin, not code
of this repository), modelled over the character list: drop whitespace
from both ends. -/
def jsTrim (s : String) : String :=
  ((s.data.dropWhile Char.isWhitespace).reverse.dropWhile
    Char.isWhitespace).reverse.asString

/-- Static fallback logo URL used by `getLogoUrl`. -/
def logoFallbackStatic : String := "/assets/logo/cx-logo.svg"

/-- Fallback footer text (same constant in `getFooterText` and the hook). -/
def footerFallbackText : String := "© 2024 Eclipse Tractus-X. All rights reserved."

/-- `BrandingAssetsService.getLogoUrl`: fetch the logo asset, return its
`url` when it is a string with non-empty trim, else the static fallback;
a thrown fetch error is caught and the fallback returned. -/
def getLogoUrl (o : GetOutcome) : String :=
  match getAssetByType .logo o with
  | .error _ => logoFallbackStatic
  | .ok logoAsset =>
      match logoAsset.bind (fun a => a.url) with
      | some url => if jsTrim url ≠ "" then url else logoFallbackStatic
      | none => logoFallbackStatic

/-- `BrandingAssetsService.getFooterText`: same shape over the `text`
field, with the fallback copyright text. -/
def getFooterText (o : GetOutcome) : String :=
  match getAssetByType .footer o with
  | .error _ => footerFallbackText
  | .ok footerAsset =>
      match footerAsset.bind (fun a => a.text) with
      | some text => if jsTrim text ≠ "" then text else footerFallbackText
      | none => footerFallbackText

/-- Outcome of `UserService.getToken()` (external collaborator): it may
throw, or return either a token string or `undefined`. -/
inductive TokenResult where
  | throws (msg : String)
  | token (t : Option String)
deriving DecidableEq, Repr

/-- `BrandingAssetsService.hasManagementPermission`: `!!token`, with a
catch-all returning `false` when `getToken` throws.  No role claims are
inspected: the function depends only on the token value. -/
def hasManagementPermission (tok : TokenResult) : Bool :=
  match tok with
  | .throws _ => false
  | .token none => false
  | .token (some s) => s ≠ ""

/-!  The `useBrandingAssets` hook (batch resolution path).  -/

/-- Hook fallback logo URL, built from the externally configured asset
base (`getAssetBase()` of `EnvironmentService`, not in the client core). -/
def hookLogoFallback (assetBase : String) : String :=
  assetBase ++ "/images/logos/cx-text.svg"

/-- A settled promise, as produced by `Promise.allSettled`. -/
inductive Settled (α : Type) where
  | fulfilled (value : α)
  | rejected (reason : String)
deriving DecidableEq, Repr

/-- Run `getAssetByType` and settle the resulting promise: a thrown error
becomes a rejection whose reason carries the error message. -/
def settleGet (t : BrandingAssetType) (o : GetOutcome) :
    Settled (Option BrandingAsset) :=
  match getAssetByType t o with
  | .ok v => .fulfilled v
  | .error (.error msg) => .rejected msg

/-- Logo branch of `refreshAssets`: adopt `logoAsset.value?.url` when the
settled result is fulfilled and the optional-chained field is truthy
(present and non-empty), otherwise set the hook fallback. -/
def handleLogoAsset (assetBase : String)
    (logoAsset : Settled (Option BrandingAsset)) : String :=
  match logoAsset with
  | .fulfilled v =>
      match v.bind (fun a => a.url) with
      | some url => if url ≠ "" then url else hookLogoFallback assetBase
      | none => hookLogoFallback assetBase
  | .rejected _ => hookLogoFallback assetBase

/-- Footer branch of `refreshAssets`, same truthiness test on `text`. -/
def handleFooterAsset (footerAsset : Settled (Option BrandingAsset)) : String :=
  match footerAsset with
  | .fulfilled v =>
      match v.bind (fun a => a.text) with
      | some text => if text ≠ "" then text else footerFallbackText
      | none => footerFallbackText
  | .rejected _ => footerFallbackText

/-- The state held by the `useBrandingAssets` hook. -/
structure BrandingState where
  logoUrl : String
  footerText : String
  loading : Bool
  error : Option String
deriving DecidableEq, Repr

/-- Initial hook state: fallbacks, `loading = true`, no error. -/
def initialBrandingState (assetBase : String) : BrandingState :=
  { logoUrl := hookLogoFallback assetBase
    footerText := footerFallbackText
    loading := true
    error := none }

/-- Input to one resolution round: either both per-type fetches settle
(`Promise.allSettled` never rejects), or the coordination logic in the
`try` block itself throws — carrying `some msg` when the thrown value is
an `Error` with message `msg` and `none` when it is not an `Error`. -/
inductive RoundInput where
  | settled (logoOutcome footerOutcome : GetOutcome)
  | coordinationThrow (err : Option String)
deriving DecidableEq, Repr

/-- Aggregate error message written by the outer `catch` of
`refreshAssets`. -/
def coordinationErrorMessage (err : Option String) : String :=
  match err with
  | some msg => msg
  | none => "Failed to load branding assets"

/-- `useBrandingAssets.refreshAssets` as a state transition: set
`loading = true` and `error = null`, settle both fetches, resolve each
type independently; the outer `catch` sets the aggregate error and both
fallbacks; the `finally` sets `loading = false` in every path. -/
def refreshAssets (assetBase : String) (s : BrandingState)
    (input : RoundInput) : BrandingState :=
  match input with
  | .settled logoOutcome footerOutcome =>
      { s with
        logoUrl := handleLogoAsset assetBase (settleGet .logo logoOutcome)
        footerText := handleFooterAsset (settleGet .footer footerOutcome)
        loading := false
        error := none }
  | .coordinationThrow err =>
      { s with
        logoUrl := hookLogoFallback assetBase
        footerText := footerFallbackText
        loading := false
        error := some (coordinationErrorMessage err) }

/-- The `console.warn` diagnostics emitted by one settled round: one
entry per rejected per-type fetch. -/
def roundWarnings (logoOutcome footerOutcome : GetOutcome) : List String :=
  (match settleGet .logo logoOutcome with
   | .rejected reason => ["Failed to load custom logo, using fallback:" ++ reason]
   | .fulfilled _ => [])
  ++
  (match settleGet .footer footerOutcome with
   | .rejected reason => ["Failed to load custom footer text, using fallback:" ++ reason]
   | .fulfilled _ => [])

/-!  The write path: `uploadAsset`, `updateAsset`, `deleteAsset`.  -/

/-- A file handle as carried by an upload request; the client never reads
its contents, so only the name is modelled. -/
structure UploadFile where
  name : String
deriving DecidableEq, Repr

/-- A value appended to a `FormData`. -/
inductive FormValue where
  | str (s : String)
  | file (f : UploadFile)
deriving DecidableEq, Repr

/-- `UploadAssetRequest` and `UpdateAssetRequest` have the same shape. -/
structure UploadAssetRequest where
  assetType : BrandingAssetType
  file : Option UploadFile := none
  text : Option String := none
deriving DecidableEq, Repr

/-- The multipart body built by `uploadAsset`/`updateAsset`: `AssetType`
always; `File` when a file is present (a File object is always truthy);
`Text` when `request.text` is truthy, i.e. present and non-empty. -/
def buildFormData (request : UploadAssetRequest) : List (String × FormValue) :=
  [("AssetType", FormValue.str (assetTypeName request.assetType))]
  ++ (match request.file with
      | some f => [("File", FormValue.file f)]
      | none => [])
  ++ (match request.text with
      | some s => if s ≠ "" then [("Text", FormValue.str s)] else []
      | none => [])

/-- An HTTP request as issued by `fetch` on the write path. -/
structure HttpRequest where
  method : String
  path : String
  authHeader : Option String
  formBody : List (String × FormValue)
deriving DecidableEq, Repr

/-- JavaScript template-literal rendering of the token inside
`Bearer ...`: an `undefined` token prints as the string `undefined`. -/
def tokenString : Option String → String
  | some t => t
  | none => "undefined"

/-- Transport outcome of one write `fetch`: rejection, or a response;
for a 2xx response the parsed JSON body is the `BrandingAsset` here. -/
inductive WriteOutcome where
  | networkFailure (msg : String)
  | got (resp : HttpResponse) (asset : BrandingAsset)
deriving DecidableEq, Repr

/-- `BrandingAssetsService.uploadAsset`.  Returns the result together
with the list of network requests issued.  `getToken()` is evaluated
while building the headers: if it throws, no request is issued and the
error is rethrown by the `catch`; otherwise the POST is always issued —
there is no credential precondition — and a non-2xx response throws a
single generic error embedding status text and body. -/
def uploadAsset (tok : TokenResult) (request : UploadAssetRequest)
    (o : WriteOutcome) : Except JsError BrandingAsset × List HttpRequest :=
  match tok with
  | .throws msg => (.error (.error msg), [])
  | .token t =>
      let req : HttpRequest :=
        { method := "POST"
          path := "/api/administration/branding/assets"
          authHeader := some ("Bearer " ++ tokenString t)
          formBody := buildFormData request }
      match o with
      | .networkFailure msg => (.error (.error msg), [req])
      | .got resp asset =>
          if resp.isOk then
            (.ok asset, [req])
          else
            (.error (.error ("Failed to upload asset: " ++ resp.statusText
              ++ " - " ++ resp.body)), [req])

/-- `BrandingAssetsService.updateAsset`: identical to upload except for
the PUT method and the error-message prefix. -/
def updateAsset (tok : TokenResult) (request : UploadAssetRequest)
    (o : WriteOutcome) : Except JsError BrandingAsset × List HttpRequest :=
  match tok with
  | .throws msg => (.error (.error msg), [])
  | .token t =>
      let req : HttpRequest :=
        { method := "PUT"
          path := "/api/administration/branding/assets"
          authHeader := some ("Bearer " ++ tokenString t)
          formBody := buildFormData request }
      match o with
      | .networkFailure msg => (.error (.error msg), [req])
      | .got resp asset =>
          if resp.isOk then
            (.ok asset, [req])
          else
            (.error (.error ("Failed to update asset: " ++ resp.statusText
              ++ " - " ++ resp.body)), [req])

/-- `BrandingAssetsService.deleteAsset`: DELETE with the same
unconditional header construction; the success path returns no body. -/
def deleteAsset (tok : TokenResult) (assetType : BrandingAssetType)
    (o : WriteOutcome) : Except JsError Unit × List HttpRequest :=
  match tok with
  | .throws msg => (.error (.error msg), [])
  | .token t =>
      let req : HttpRequest :=
        { method := "DELETE"
          path := "/api/administration/branding/assets/" ++ assetTypeName assetType
          authHeader := some ("Bearer " ++ tokenString t)
          formBody := [] }
      match o with
      | .networkFailure msg => (.error (.error msg), [req])
      | .got resp _ =>
          if resp.isOk then
            (.ok (), [req])
          else
            (.error (.error ("Failed to delete asset: " ++ resp.statusText
              ++ " - " ++ resp.body)), [req])

/-!  Derived views used by the statements: the per-type selected field,
the two resolution paths and their fallbacks.  -/

/-- The authoritative payload field per type: `url` for logo, `text` for
footer. -/
def selectedField (t : BrandingAssetType) (a : BrandingAsset) : Option String :=
  match t with
  | .logo => a.url
  | .footer => a.text

/-- What one `getByType` fetch yields for the selected field: an error,
or the optionally-chained field value. -/
def fetchedField (t : BrandingAssetType) (o : GetOutcome) :
    Except JsError (Option String) :=
  match getAssetByType t o with
  | .error e => .error e
  | .ok a => .ok (a.bind (selectedField t))

/-- The single-asset helper path, dispatched per type. -/
def helperResolve (t : BrandingAssetType) (o : GetOutcome) : String :=
  match t with
  | .logo => getLogoUrl o
  | .footer => getFooterText o

/-- The fallback constant used by the helper path per type. -/
def helperFallback : BrandingAssetType → String
  | .logo => logoFallbackStatic
  | .footer => footerFallbackText

/-- The batch path of `refreshAssets`, dispatched per type. -/
def batchResolve (assetBase : String) (t : BrandingAssetType)
    (o : GetOutcome) : String :=
  match t with
  | .logo => handleLogoAsset assetBase (settleGet .logo o)
  | .footer => handleFooterAsset (settleGet .footer o)

/-- The fallback used by the batch path per type. -/
def batchFallback (assetBase : String) : BrandingAssetType → String
  | .logo => hookLogoFallback assetBase
  | .footer => footerFallbackText

/-- Unusable for the helper path: fetch failed, asset absent, field
missing, or field with all-whitespace (hence also empty) value. -/
def helperUnusable (t : BrandingAssetType) (o : GetOutcome) : Bool :=
  match fetchedField t o with
  | .error _ => true
  | .ok none => true
  | .ok (some s) => jsTrim s == ""

/-- Unusable for the batch path: fetch failed, asset absent, field
missing, or field equal to the empty string (truthiness test). -/
def batchUnusable (t : BrandingAssetType) (o : GetOutcome) : Bool :=
  match fetchedField t o with
  | .error _ => true
  | .ok none => true
  | .ok (some s) => s == ""

/-- The helper path resolves exactly by the trim rule over the fetched
field. -/
theorem helperResolve_eq_fetchedField (t : BrandingAssetType) (o : GetOutcome) :
    helperResolve t o =
      match fetchedField t o with
      | .error _ => helperFallback t
      | .ok none => helperFallback t
      | .ok (some s) => if jsTrim s ≠ "" then s else helperFallback t := by
  cases t <;>
    simp only [helperResolve, fetchedField, helperFallback, getLogoUrl, getFooterText] <;>
    cases getAssetByType _ o with
    | error e => rfl
    | ok a =>
        simp only [selectedField]
        cases a.bind (fun x => x.url) <;> cases a.bind (fun x => x.text) <;> rfl

/-- The batch path resolves exactly by the truthiness rule over the
fetched field. -/
theorem batchResolve_eq_fetchedField (assetBase : String)
    (t : BrandingAssetType) (o : GetOutcome) :
    batchResolve assetBase t o =
      match fetchedField t o with
      | .error _ => batchFallback assetBase t
      | .ok none => batchFallback assetBase t
      | .ok (some s) => if s ≠ "" then s else batchFallback assetBase t := by
  cases t <;>
    simp only [batchResolve, fetchedField, batchFallback, handleLogoAsset,
      handleFooterAsset, settleGet] <;>
    cases getAssetByType _ o with
    | error e => cases e with | error msg => rfl
    | ok a =>
        simp only [selectedField]
        cases a.bind (fun x => x.url) <;> cases a.bind (fun x => x.text) <;> rfl

/-- The fields of the state produced by a settled round are the per-type
batch resolutions. -/
theorem refreshAssets_settled_fields (assetBase : String) (s : BrandingState)
    (logoOutcome footerOutcome : GetOutcome) :
    (refreshAssets assetBase s (.settled logoOutcome footerOutcome)).logoUrl
        = batchResolve assetBase .logo logoOutcome
    ∧ (refreshAssets assetBase s (.settled logoOutcome footerOutcome)).footerText
        = batchResolve assetBase .footer footerOutcome :=
  ⟨rfl, rfl⟩

/-- A string with a non-empty suffix is non-empty. -/
theorem append_right_ne_empty (a b : String) (h : b ≠ "") : a ++ b ≠ "" := by
  intro hc
  apply h
  have hd := congrArg String.data hc
  simp only [String.data_append] at hd
  rcases List.append_eq_nil.mp hd with ⟨-, hb⟩
  exact String.ext hb

/-- The hook fallback logo URL is never the empty string. -/
theorem hookLogoFallback_ne_empty (assetBase : String) :
    hookLogoFallback assetBase ≠ "" :=
  append_right_ne_empty assetBase "/images/logos/cx-text.svg" (by decide)

/-- The fallback footer text is never the empty string. -/
theorem footerFallbackText_ne_empty : footerFallbackText ≠ "" := by decide

/-- The static fallback logo URL is never the empty string. -/
theorem logoFallbackStatic_ne_empty : logoFallbackStatic ≠ "" := by decide

/-- The helper fallback is non-empty for both types. -/
theorem helperFallback_ne_empty (t : BrandingAssetType) : helperFallback t ≠ "" := by
  cases t <;> decide

/-- The batch fallback is non-empty for both types. -/
theorem batchFallback_ne_empty (assetBase : String) (t : BrandingAssetType) :
    batchFallback assetBase t ≠ "" := by
  cases t
  · exact hookLogoFallback_ne_empty assetBase
  · exact footerFallbackText_ne_empty

/-- When the fetch throws, the fetched field is that error. -/
theorem fetchedField_of_error (t : BrandingAssetType) (o : GetOutcome)
    (e : JsError) (h : getAssetByType t o = .error e) :
    fetchedField t o = .error e := by
  simp [fetchedField, h]

/-- When the fetch yields an asset, the fetched field is its selected
field. -/
theorem fetchedField_of_ok (t : BrandingAssetType) (o : GetOutcome)
    (a : BrandingAsset) (h : getAssetByType t o = .ok (some a)) :
    fetchedField t o = .ok (selectedField t a) := by
  simp [fetchedField, h, Option.bind]

/-- An unusable fetched field resolves to the fallback on the helper
path. -/
theorem helperResolve_of_unusable (t : BrandingAssetType) (o : GetOutcome)
    (h : helperUnusable t o = true) : helperResolve t o = helperFallback t := by
  have hh := helperResolve_eq_fetchedField t o
  unfold helperUnusable at h
  cases hf : fetchedField t o with
  | error e => rw [hf] at hh; exact hh
  | ok v =>
      cases v with
      | none => rw [hf] at hh; exact hh
      | some s =>
          rw [hf] at hh h
          have hs : jsTrim s = "" := by simpa using h
          rw [hh]
          show (if jsTrim s ≠ "" then s else helperFallback t) = helperFallback t
          rw [hs]
          simp

/-- An unusable fetched field resolves to the fallback on the batch
path. -/
theorem batchResolve_of_unusable (assetBase : String) (t : BrandingAssetType)
    (o : GetOutcome) (h : batchUnusable t o = true) :
    batchResolve assetBase t o = batchFallback assetBase t := by
  have hb := batchResolve_eq_fetchedField assetBase t o
  unfold batchUnusable at h
  cases hf : fetchedField t o with
  | error e => rw [hf] at hb; exact hb
  | ok v =>
      cases v with
      | none => rw [hf] at hb; exact hb
      | some s =>
          rw [hf] at hb h
          have hs : s = "" := by simpa using h
          rw [hb]
          show (if s ≠ "" then s else batchFallback assetBase t)
              = batchFallback assetBase t
          rw [hs]
          simp

/-- Batch-unusable implies helper-unusable: an empty field also has an
empty trim. -/
theorem helperUnusable_of_batchUnusable (t : BrandingAssetType)
    (o : GetOutcome) (h : batchUnusable t o = true) :
    helperUnusable t o = true := by
  unfold batchUnusable at h
  unfold helperUnusable
  cases hf : fetchedField t o with
  | error e => rfl
  | ok v =>
      cases v with
      | none => rfl
      | some s =>
          rw [hf] at h
          have hs : s = "" := by simpa using h
          subst hs
          show (jsTrim "" == "") = true
          decide

/-- The batch path yields either the fallback or a non-empty remote
field value, verbatim. -/
theorem batchResolve_cases (assetBase : String) (t : BrandingAssetType)
    (o : GetOutcome) :
    batchResolve assetBase t o = batchFallback assetBase t
    ∨ ∃ s, fetchedField t o = .ok (some s) ∧ s ≠ ""
        ∧ batchResolve assetBase t o = s := by
  have hb := batchResolve_eq_fetchedField assetBase t o
  cases hf : fetchedField t o with
  | error e => rw [hf] at hb; exact Or.inl hb
  | ok v =>
      cases v with
      | none => rw [hf] at hb; exact Or.inl hb
      | some s =>
          rw [hf] at hb
          by_cases hs : s = ""
          · left
            rw [hb]
            show (if s ≠ "" then s else batchFallback assetBase t)
                = batchFallback assetBase t
            subst hs
            simp
          · right
            refine ⟨s, rfl, hs, ?_⟩
            rw [hb]
            show (if s ≠ "" then s else batchFallback assetBase t) = s
            simp [hs]

/-- The helper path yields either the fallback or a value with non-empty
trim, verbatim. -/
theorem helperResolve_cases (t : BrandingAssetType) (o : GetOutcome) :
    helperResolve t o = helperFallback t
    ∨ ∃ s, fetchedField t o = .ok (some s) ∧ jsTrim s ≠ ""
        ∧ helperResolve t o = s := by
  have hh := helperResolve_eq_fetchedField t o
  cases hf : fetchedField t o with
  | error e => rw [hf] at hh; exact Or.inl hh
  | ok v =>
      cases v with
      | none => rw [hf] at hh; exact Or.inl hh
      | some s =>
          rw [hf] at hh
          by_cases hs : jsTrim s = ""
          · left
            rw [hh]
            show (if jsTrim s ≠ "" then s else helperFallback t) = helperFallback t
            rw [hs]
            simp
          · right
            refine ⟨s, rfl, hs, ?_⟩
            rw [hh]
            show (if jsTrim s ≠ "" then s else helperFallback t) = s
            simp [hs]

/-- A string with empty trim is not a string with non-empty trim; in
particular a value adopted by the helper path is non-empty. -/
theorem ne_empty_of_trim_ne_empty (s : String) (h : jsTrim s ≠ "") : s ≠ "" := by
  intro hs
  subst hs
  exact h rfl

/-!  Concrete fixtures used by counterexamples and witnesses.  -/

/-- A 200 OK response. -/
def respOk : HttpResponse := { status := 200, statusText := "OK", body := "" }

/-- A 404 response. -/
def resp404 : HttpResponse := { status := 404, statusText := "Not Found", body := "" }

/-- A 500 response. -/
def resp500 : HttpResponse :=
  { status := 500, statusText := "Internal Server Error", body := "boom" }

/-- A 400 response whose body carries the backend validation message. -/
def resp400 : HttpResponse :=
  { status := 400, statusText := "Bad Request", body := "file too large" }

/-- A 401 response. -/
def resp401 : HttpResponse :=
  { status := 401, statusText := "Unauthorized", body := "denied" }

/-- A logo asset whose `url` is a single space: non-empty but
whitespace-only. -/
def whitespaceLogoAsset : BrandingAsset := { assetType := .logo, url := some " " }

/-- A logo asset with a usable remote URL. -/
def goodLogoAsset : BrandingAsset :=
  { assetType := .logo, url := some "https://cdn.example/logo.svg" }

/-- A footer asset with a usable remote text. -/
def goodFooterAsset : BrandingAsset :=
  { assetType := .footer, text := some "Custom footer" }

/-- An asset carrying no payload fields at all. -/
def emptyAsset : BrandingAsset := { assetType := .logo }

/-- A rejected fetch: the network itself fails. -/
def failOutcome : GetOutcome := .networkFailure "ECONNREFUSED"

/-- An upload request carrying a logo file. -/
def uploadLogoRequest : UploadAssetRequest :=
  { assetType := .logo, file := some { name := "logo.png" } }

/-!  Claim C1.  -/

/-- Claim C1 as stated is false: the batch resolution path adopts a
whitespace-only (but non-empty) remote value instead of falling back.
With `getByType(logo)` returning an asset whose `url` is a single space,
`refreshAssets` sets `logoUrl` to that space, which differs from the
hook fallback, while the single space is whitespace-only. -/
theorem C1_counterexample :
    getAssetByType .logo (GetOutcome.got respOk whitespaceLogoAsset)
        = .ok (some whitespaceLogoAsset)
    ∧ whitespaceLogoAsset.url = some " "
    ∧ jsTrim " " = ""
    ∧ (refreshAssets "https://portal.example"
        (initialBrandingState "https://portal.example")
        (.settled (GetOutcome.got respOk whitespaceLogoAsset)
          (GetOutcome.got resp404 emptyAsset))).logoUrl = " "
    ∧ " " ≠ hookLogoFallback "https://portal.example" := by
  refine ⟨rfl, rfl, by decide, rfl, by decide⟩

/-- Claim C1 (amended): when `getByType(T)` fails, returns absent, or
yields a selected field that is missing or empty, both the batch path
and the helper path resolve to their configured fallback; a selected
field that is whitespace-only additionally resolves to the fallback on
the helper path only — the batch path adopts any non-empty value
verbatim. -/
theorem C1_fallback_rule (t : BrandingAssetType) (o : GetOutcome)
    (assetBase : String) :
    (batchUnusable t o = true →
      batchResolve assetBase t o = batchFallback assetBase t
      ∧ helperResolve t o = helperFallback t)
    ∧ (helperUnusable t o = true → helperResolve t o = helperFallback t) :=
  ⟨fun h => ⟨batchResolve_of_unusable assetBase t o h,
    helperResolve_of_unusable t o (helperUnusable_of_batchUnusable t o h)⟩,
   fun h => helperResolve_of_unusable t o h⟩

/-- Witness for C1: a network failure is unusable for both paths, and
both resolve to their fallbacks. -/
theorem C1_fallback_rule_witness :
    batchUnusable .logo failOutcome = true
    ∧ helperUnusable .logo failOutcome = true
    ∧ batchResolve "https://portal.example" .logo failOutcome
        = batchFallback "https://portal.example" .logo
    ∧ helperResolve .logo failOutcome = helperFallback .logo :=
  ⟨by decide, by decide,
   ((C1_fallback_rule .logo failOutcome "https://portal.example").1 (by decide)).1,
   (C1_fallback_rule .logo failOutcome "https://portal.example").2 (by decide)⟩

/-!  Claim C2.  -/

/-- Claim C2: after any resolution round — all fetches settled or the
coordination logic itself thrown — `loading` is false, the exposed
`logoUrl` and `footerText` are concrete non-empty strings, and each is
either its fallback or a remote field value adopted verbatim. -/
theorem C2_round_invariant (assetBase : String) (s : BrandingState)
    (input : RoundInput) :
    (refreshAssets assetBase s input).loading = false
    ∧ (refreshAssets assetBase s input).logoUrl ≠ ""
    ∧ (refreshAssets assetBase s input).footerText ≠ ""
    ∧ ((refreshAssets assetBase s input).logoUrl = hookLogoFallback assetBase
        ∨ ∃ lo fo v, input = .settled lo fo
            ∧ fetchedField .logo lo = .ok (some v)
            ∧ (refreshAssets assetBase s input).logoUrl = v)
    ∧ ((refreshAssets assetBase s input).footerText = footerFallbackText
        ∨ ∃ lo fo v, input = .settled lo fo
            ∧ fetchedField .footer fo = .ok (some v)
            ∧ (refreshAssets assetBase s input).footerText = v) := by
  cases input with
  | coordinationThrow err =>
      exact ⟨rfl, hookLogoFallback_ne_empty assetBase, footerFallbackText_ne_empty,
        Or.inl rfl, Or.inl rfl⟩
  | settled lo fo =>
      have hl := refreshAssets_settled_fields assetBase s lo fo
      have hlogo := batchResolve_cases assetBase .logo lo
      have hfoot := batchResolve_cases assetBase .footer fo
      refine ⟨rfl, ?_, ?_, ?_, ?_⟩
      · rcases hlogo with h | ⟨v, _, hv, h⟩
        · rw [hl.1, h]; exact batchFallback_ne_empty assetBase .logo
        · rw [hl.1, h]; exact hv
      · rcases hfoot with h | ⟨v, _, hv, h⟩
        · rw [hl.2, h]; exact batchFallback_ne_empty assetBase .footer
        · rw [hl.2, h]; exact hv
      · rcases hlogo with h | ⟨v, hf, _, h⟩
        · exact Or.inl (by rw [hl.1, h]; rfl)
        · exact Or.inr ⟨lo, fo, v, rfl, hf, by rw [hl.1, h]⟩
      · rcases hfoot with h | ⟨v, hf, _, h⟩
        · exact Or.inl (by rw [hl.2, h]; rfl)
        · exact Or.inr ⟨lo, fo, v, rfl, hf, by rw [hl.2, h]⟩

/-- Witness for C2 at a concrete round: logo fetch fails, footer fetch
returns a usable value. -/
theorem C2_round_invariant_witness :
    (refreshAssets "https://portal.example"
      (initialBrandingState "https://portal.example")
      (.settled failOutcome (GetOutcome.got respOk goodFooterAsset))).loading = false
    ∧ (refreshAssets "https://portal.example"
        (initialBrandingState "https://portal.example")
        (.settled failOutcome (GetOutcome.got respOk goodFooterAsset))).logoUrl ≠ "" :=
  ⟨(C2_round_invariant "https://portal.example"
      (initialBrandingState "https://portal.example")
      (.settled failOutcome (GetOutcome.got respOk goodFooterAsset))).1,
   (C2_round_invariant "https://portal.example"
      (initialBrandingState "https://portal.example")
      (.settled failOutcome (GetOutcome.got respOk goodFooterAsset))).2.1⟩

/-!  Claim C3.  -/

/-- Claim C3 as stated is false: with no credential present
(`getToken()` yields `undefined`), `uploadAsset` still issues exactly
one network request — carrying the header `Bearer undefined` — and does
not fail client-side at all: with a 200 response it succeeds.  The same
holds for `deleteAsset`. -/
theorem C3_counterexample :
    (uploadAsset (.token none) uploadLogoRequest
        (.got respOk goodLogoAsset)).2.length = 1
    ∧ (uploadAsset (.token none) uploadLogoRequest
        (.got respOk goodLogoAsset)).1 = .ok goodLogoAsset
    ∧ (uploadAsset (.token none) uploadLogoRequest
        (.got respOk goodLogoAsset)).2.map HttpRequest.authHeader
        = [some "Bearer undefined"]
    ∧ (deleteAsset (.token none) .logo (.got respOk goodLogoAsset)).2.length = 1 :=
  ⟨rfl, rfl, rfl, rfl⟩

/-- Claim C3 (amended): a write attempted with no Credential is not
stopped client-side: upload, update and delete each issue exactly one
network request whose authorization header is the literal
`Bearer undefined`; there is no `PreconditionError`.  Only `getToken`
itself throwing prevents the network call (the error is rethrown). -/
theorem C3_no_client_precondition (request : UploadAssetRequest)
    (o od : WriteOutcome) (t : BrandingAssetType) (m : String) :
    (uploadAsset (.token none) request o).2.length = 1
    ∧ (updateAsset (.token none) request o).2.length = 1
    ∧ (deleteAsset (.token none) t od).2.length = 1
    ∧ (uploadAsset (.token none) request o).2.map HttpRequest.authHeader
        = [some "Bearer undefined"]
    ∧ (uploadAsset (.throws m) request o).2 = [] := by
  refine ⟨?_, ?_, ?_, ?_, rfl⟩
  · cases o with
    | networkFailure msg => rfl
    | got resp a =>
        show (if resp.isOk then _ else _ : Except JsError BrandingAsset × List HttpRequest).2.length = 1
        split <;> rfl
  · cases o with
    | networkFailure msg => rfl
    | got resp a =>
        show (if resp.isOk then _ else _ : Except JsError BrandingAsset × List HttpRequest).2.length = 1
        split <;> rfl
  · cases od with
    | networkFailure msg => rfl
    | got resp a =>
        show (if resp.isOk then _ else _ : Except JsError Unit × List HttpRequest).2.length = 1
        split <;> rfl
  · cases o with
    | networkFailure msg => rfl
    | got resp a =>
        show (if resp.isOk then _ else _ : Except JsError BrandingAsset × List HttpRequest).2.map HttpRequest.authHeader = _
        split <;> rfl

/-- Witness for C3 (amended) at concrete inputs. -/
theorem C3_no_client_precondition_witness :
    (uploadAsset (.token none) uploadLogoRequest
        (.got resp500 goodLogoAsset)).2.length = 1
    ∧ (deleteAsset (.token none) .footer
        (.networkFailure "ECONNREFUSED")).2.length = 1 :=
  ⟨(C3_no_client_precondition uploadLogoRequest (.got resp500 goodLogoAsset)
      (.networkFailure "ECONNREFUSED") .footer "boom").1,
   (C3_no_client_precondition uploadLogoRequest (.got resp500 goodLogoAsset)
      (.networkFailure "ECONNREFUSED") .footer "boom").2.2.1⟩

/-!  Claim C4.  -/

/-- Claim C4: when the logo fetch throws and the footer fetch yields a
truthy text, the settled round sets the logo to the hook fallback, the
footer to the remote value, clears the aggregate error and ends with
`loading = false` — one failure neither blocks the other value nor
leaves loading stuck. -/
theorem C4_logo_failure_footer_success (assetBase : String)
    (s : BrandingState) (lo fo : GetOutcome) (e : JsError) (v : String)
    (hlo : getAssetByType .logo lo = .error e)
    (hfo : fetchedField .footer fo = .ok (some v)) (hv : v ≠ "") :
    (refreshAssets assetBase s (.settled lo fo)).logoUrl
        = hookLogoFallback assetBase
    ∧ (refreshAssets assetBase s (.settled lo fo)).footerText = v
    ∧ (refreshAssets assetBase s (.settled lo fo)).loading = false
    ∧ (refreshAssets assetBase s (.settled lo fo)).error = none := by
  have hfields := refreshAssets_settled_fields assetBase s lo fo
  have hbl := batchResolve_eq_fetchedField assetBase .logo lo
  have hbf := batchResolve_eq_fetchedField assetBase .footer fo
  rw [fetchedField_of_error .logo lo e hlo] at hbl
  rw [hfo] at hbf
  refine ⟨?_, ?_, rfl, rfl⟩
  · rw [hfields.1, hbl]; rfl
  · rw [hfields.2, hbf]
    show (if v ≠ "" then v else batchFallback assetBase .footer) = v
    simp [hv]

/-- Witness for C4: network-failed logo fetch, 200 footer fetch with
text `Custom footer`. -/
theorem C4_logo_failure_footer_success_witness :
    (refreshAssets "https://portal.example"
        (initialBrandingState "https://portal.example")
        (.settled failOutcome (GetOutcome.got respOk goodFooterAsset))).logoUrl
      = hookLogoFallback "https://portal.example"
    ∧ (refreshAssets "https://portal.example"
        (initialBrandingState "https://portal.example")
        (.settled failOutcome (GetOutcome.got respOk goodFooterAsset))).footerText
      = "Custom footer"
    ∧ (refreshAssets "https://portal.example"
        (initialBrandingState "https://portal.example")
        (.settled failOutcome (GetOutcome.got respOk goodFooterAsset))).loading
      = false :=
  ⟨(C4_logo_failure_footer_success "https://portal.example" _ failOutcome
      (GetOutcome.got respOk goodFooterAsset) (.error "ECONNREFUSED")
      "Custom footer" rfl rfl (by decide)).1,
   (C4_logo_failure_footer_success "https://portal.example" _ failOutcome
      (GetOutcome.got respOk goodFooterAsset) (.error "ECONNREFUSED")
      "Custom footer" rfl rfl (by decide)).2.1,
   (C4_logo_failure_footer_success "https://portal.example" _ failOutcome
      (GetOutcome.got respOk goodFooterAsset) (.error "ECONNREFUSED")
      "Custom footer" rfl rfl (by decide)).2.2.1⟩

/-!  Claim C5.  -/

/-- Claim C5: when `getByType(T)` returns an asset whose selected field
equals a non-empty, non-whitespace-only value V, both the batch path
and the helper path resolve to V character for character. -/
theorem C5_verbatim_adoption (t : BrandingAssetType) (o : GetOutcome)
    (assetBase : String) (a : BrandingAsset) (v : String)
    (hget : getAssetByType t o = .ok (some a))
    (hfield : selectedField t a = some v)
    (hne : v ≠ "") (hws : jsTrim v ≠ "") :
    batchResolve assetBase t o = v ∧ helperResolve t o = v := by
  have hf : fetchedField t o = .ok (some v) := by
    rw [fetchedField_of_ok t o a hget, hfield]
  have hb := batchResolve_eq_fetchedField assetBase t o
  have hh := helperResolve_eq_fetchedField t o
  rw [hf] at hb hh
  constructor
  · rw [hb]
    show (if v ≠ "" then v else batchFallback assetBase t) = v
    simp [hne]
  · rw [hh]
    show (if jsTrim v ≠ "" then v else helperFallback t) = v
    simp [hws]

/-- Witness for C5: a logo with URL `https://cdn.example/logo.svg`. -/
theorem C5_verbatim_adoption_witness :
    batchResolve "https://portal.example" .logo
        (GetOutcome.got respOk goodLogoAsset) = "https://cdn.example/logo.svg"
    ∧ helperResolve .logo (GetOutcome.got respOk goodLogoAsset)
        = "https://cdn.example/logo.svg" :=
  C5_verbatim_adoption .logo (GetOutcome.got respOk goodLogoAsset)
    "https://portal.example" goodLogoAsset "https://cdn.example/logo.svg"
    rfl rfl (by decide) (by decide)

/-!  Claim C6.  -/

/-- Claim C6: `getAssetByType` maps a 404 response to `none` with no
error raised, and raises the transport error for every other non-2xx
status. -/
theorem C6_status_mapping (t : BrandingAssetType) (resp : HttpResponse)
    (a : BrandingAsset) :
    (resp.status = 404 → getAssetByType t (.got resp a) = .ok none)
    ∧ (resp.status ≠ 404 → resp.isOk = false →
        getAssetByType t (.got resp a)
          = .error (.error ("Failed to fetch " ++ assetTypeName t
              ++ " asset: " ++ resp.statusText))) := by
  constructor
  · intro h
    show (if resp.status = 404 then _ else _ : Except JsError (Option BrandingAsset)) = _
    rw [if_pos h]
  · intro h1 h2
    show (if resp.status = 404 then _ else _ : Except JsError (Option BrandingAsset)) = _
    rw [if_neg h1]
    show (if resp.isOk then _ else _ : Except JsError (Option BrandingAsset)) = _
    rw [h2]
    rfl

/-- Witness for C6 at a 404 and at a 500 response. -/
theorem C6_status_mapping_witness :
    getAssetByType .logo (.got resp404 emptyAsset) = .ok none
    ∧ getAssetByType .footer (.got resp500 emptyAsset)
        = .error (.error "Failed to fetch footer asset: Internal Server Error") :=
  ⟨(C6_status_mapping .logo resp404 emptyAsset).1 rfl,
   (C6_status_mapping .footer resp500 emptyAsset).2 (by decide) (by decide)⟩

/-!  Claim C7.  -/

/-- Claim C7: in a settled round the aggregate error is always cleared
to `none`, even when a per-type fetch rejected — the rejection only
yields a `console.warn` diagnostic and the fallback value; the aggregate
error is set exactly by the outer catch, i.e. when the coordination
logic itself throws. -/
theorem C7_aggregate_error_discipline (assetBase : String)
    (s : BrandingState) (lo fo : GetOutcome) (err : Option String)
    (reason : String) :
    (refreshAssets assetBase s (.settled lo fo)).error = none
    ∧ (settleGet .logo lo = .rejected reason →
        (refreshAssets assetBase s (.settled lo fo)).logoUrl
            = hookLogoFallback assetBase
        ∧ ("Failed to load custom logo, using fallback:" ++ reason)
            ∈ roundWarnings lo fo)
    ∧ (refreshAssets assetBase s (.coordinationThrow err)).error
        = some (coordinationErrorMessage err) := by
  refine ⟨rfl, ?_, rfl⟩
  intro h
  constructor
  · have hfields := refreshAssets_settled_fields assetBase s lo fo
    rw [hfields.1]
    show handleLogoAsset assetBase (settleGet .logo lo) = _
    rw [h]
    rfl
  · unfold roundWarnings
    rw [h]
    exact List.mem_append_left _ (List.mem_singleton.mpr rfl)

/-- Witness for C7: rejected logo fetch, fulfilled footer fetch. -/
theorem C7_aggregate_error_discipline_witness :
    (refreshAssets "https://portal.example"
        (initialBrandingState "https://portal.example")
        (.settled failOutcome (GetOutcome.got respOk goodFooterAsset))).error = none
    ∧ ("Failed to load custom logo, using fallback:ECONNREFUSED")
        ∈ roundWarnings failOutcome (GetOutcome.got respOk goodFooterAsset)
    ∧ (refreshAssets "https://portal.example"
        (initialBrandingState "https://portal.example")
        (.coordinationThrow (some "boom"))).error = some "boom" :=
  ⟨(C7_aggregate_error_discipline "https://portal.example" _ failOutcome
      (GetOutcome.got respOk goodFooterAsset) (some "boom") "ECONNREFUSED").1,
   ((C7_aggregate_error_discipline "https://portal.example"
      (initialBrandingState "https://portal.example") failOutcome
      (GetOutcome.got respOk goodFooterAsset) (some "boom") "ECONNREFUSED").2.1 rfl).2,
   (C7_aggregate_error_discipline "https://portal.example" _ failOutcome
      (GetOutcome.got respOk goodFooterAsset) (some "boom") "ECONNREFUSED").2.2⟩

/-!  Claim C8.  -/

/-- Claim C8 as stated is false: a 401 write failure and a 400 write
failure are both raised as the single generic error constructor with a
composite message of the fixed format, so the 401/403 case is not
distinguishable as a separate `AuthError` kind, and the 400 backend
message is embedded in a longer string rather than relayed verbatim. -/
theorem C8_counterexample :
    (uploadAsset (.token (some "tok")) uploadLogoRequest
        (.got resp401 goodLogoAsset)).1
      = .error (.error "Failed to upload asset: Unauthorized - denied")
    ∧ (uploadAsset (.token (some "tok")) uploadLogoRequest
        (.got resp400 goodLogoAsset)).1
      = .error (.error "Failed to upload asset: Bad Request - file too large")
    ∧ "Failed to upload asset: Bad Request - file too large" ≠ "file too large" :=
  ⟨rfl, rfl, by decide⟩

/-- Claim C8 (amended): every non-2xx write response — 400, 401 and 403
alike — raises the one generic error whose message is the fixed format
`Failed to upload asset: <statusText> - <body>` (resp. `update`): no
distinct error kinds, with the backend body embedded in that composite
message. -/
theorem C8_generic_write_errors (t : Option String)
    (request : UploadAssetRequest) (resp : HttpResponse) (a : BrandingAsset)
    (h : resp.isOk = false) :
    (uploadAsset (.token t) request (.got resp a)).1
      = .error (.error ("Failed to upload asset: " ++ resp.statusText
          ++ " - " ++ resp.body))
    ∧ (updateAsset (.token t) request (.got resp a)).1
      = .error (.error ("Failed to update asset: " ++ resp.statusText
          ++ " - " ++ resp.body)) := by
  constructor
  · show (if resp.isOk then _ else _ : Except JsError BrandingAsset × List HttpRequest).1 = _
    rw [h]
    rfl
  · show (if resp.isOk then _ else _ : Except JsError BrandingAsset × List HttpRequest).1 = _
    rw [h]
    rfl

/-- Witness for C8 (amended) at the 400 response. -/
theorem C8_generic_write_errors_witness :
    (uploadAsset (.token (some "tok")) uploadLogoRequest
        (.got resp400 goodLogoAsset)).1
      = .error (.error "Failed to upload asset: Bad Request - file too large") :=
  (C8_generic_write_errors (some "tok") uploadLogoRequest resp400
    goodLogoAsset (by decide)).1

/-!  Claim C9.  -/

/-- Claim C9: `hasManagementPermission` is true exactly when `getToken`
returns a non-empty token string; when `getToken` throws it returns
false rather than propagating.  The definition inspects only the token
value — no role claims exist in its input. -/
theorem C9_permission_is_token_presence (tok : TokenResult) :
    (hasManagementPermission tok = true ↔ ∃ s, tok = .token (some s) ∧ s ≠ "")
    ∧ (∀ msg, hasManagementPermission (.throws msg) = false) := by
  constructor
  · cases tok with
    | throws m => simp [hasManagementPermission]
    | token t =>
        cases t with
        | none => simp [hasManagementPermission]
        | some s => simp [hasManagementPermission]
  · intro msg
    rfl

/-- Witness for C9: a present non-empty token grants, an absent and a
throwing `getToken` deny. -/
theorem C9_permission_is_token_presence_witness :
    hasManagementPermission (.token (some "abc")) = true
    ∧ hasManagementPermission (.throws "keycloak down") = false :=
  ⟨(C9_permission_is_token_presence (.token (some "abc"))).1.mpr
      ⟨"abc", rfl, by decide⟩,
   (C9_permission_is_token_presence (.token none)).2 "keycloak down"⟩

/-!  Claim C10.  -/

/-- Claim C10: the helper operations are total — every transport outcome
yields a concrete non-empty string (the model returns a plain `String`,
never an error) — and whenever the fetch throws or yields no usable
value the built-in fallback is returned. -/
theorem C10_helpers_never_reject (o : GetOutcome) :
    getLogoUrl o ≠ ""
    ∧ getFooterText o ≠ ""
    ∧ (helperUnusable .logo o = true → getLogoUrl o = logoFallbackStatic)
    ∧ (helperUnusable .footer o = true → getFooterText o = footerFallbackText) := by
  refine ⟨?_, ?_, ?_, ?_⟩
  · rcases helperResolve_cases .logo o with h | ⟨v, _, hv, h⟩
    · rw [show getLogoUrl o = helperResolve .logo o from rfl, h]
      exact helperFallback_ne_empty .logo
    · rw [show getLogoUrl o = helperResolve .logo o from rfl, h]
      exact ne_empty_of_trim_ne_empty v hv
  · rcases helperResolve_cases .footer o with h | ⟨v, _, hv, h⟩
    · rw [show getFooterText o = helperResolve .footer o from rfl, h]
      exact helperFallback_ne_empty .footer
    · rw [show getFooterText o = helperResolve .footer o from rfl, h]
      exact ne_empty_of_trim_ne_empty v hv
  · intro h
    exact helperResolve_of_unusable .logo o h
  · intro h
    exact helperResolve_of_unusable .footer o h

/-- Witness for C10: a throwing fetch yields both fallbacks. -/
theorem C10_helpers_never_reject_witness :
    getLogoUrl failOutcome = logoFallbackStatic
    ∧ getFooterText failOutcome = footerFallbackText ∧ getLogoUrl failOutcome ≠ "" :=
  ⟨(C10_helpers_never_reject failOutcome).2.2.1 (by decide),
   (C10_helpers_never_reject failOutcome).2.2.2 (by decide),
   (C10_helpers_never_reject failOutcome).1⟩
